import Mathlib

/-!
Verification of the geometric transformation and layout engine of the
ltspice_to_svg repository, as a shallow embedding in Lean.

Coordinates are modelled as rationals: every operation verified here
(negation, swapping, halving, scaling, comparison against literal
thresholds) is exact on the Python floats the source manipulates, so ℚ is a
faithful carrier for the values that arise.

Source files embedded:
  - src/generators/svg_generator.py   (`_get_single_symbol_terminals`,
    `_find_t_junctions`)
  - src/renderers/svg_renderer.py     (`_find_t_junctions`, `render_symbols`)
  - src/generators/symbol_renderer.py (`render_symbol` transform building)
  - src/renderers/symbol_renderer.py  (`set_transformation`,
    `_render_window_property`)
  - src/generators/shape_renderer.py  (`_scale_dash_array`, `_create_circle`,
    `render_circle`, `_create_arc`, `render_arc`)
  - src/renderers/text_renderer.py    (`TextRenderer.render`,
    `_create_multiline_text`)
-/

namespace LtspiceToSvg

/-- A schematic-space point. -/
structure Pt where
  x : ℚ
  y : ℚ
deriving DecidableEq, Repr

/-- Rotation kind of an LTspice rotation string: `R` = pure rotation,
`M` = mirror-then-rotate. -/
inductive RotKind
  | R
  | M
deriving DecidableEq, Repr

/-- Embedding of the per-point transform in
`SVGGenerator._get_single_symbol_terminals`
(src/generators/svg_generator.py lines 246-257): when the rotation kind is
`M` the x coordinate is negated first (`tx = -tx`), then the `elif` chain
applies the fixed 90-degree-step table; any angle other than 90/180/270
(including 0) leaves the point unrotated. -/
def rotateMirror (k : RotKind) (angle : ℤ) (p : Pt) : Pt :=
  let tx : ℚ := if k = RotKind.M then -p.x else p.x
  let ty : ℚ := p.y
  if angle = 90 then ⟨-ty, tx⟩
  else if angle = 180 then ⟨-tx, -ty⟩
  else if angle = 270 then ⟨ty, -tx⟩
  else ⟨tx, ty⟩

/-- The fixed rotation table exactly as the specification states it:
0 → identity, 90 → `(x,y) ↦ (-y,x)`, 180 → `(-x,-y)`, 270 → `(y,-x)`. -/
def claimRotTable (angle : ℤ) (p : Pt) : Pt :=
  if angle = 0 then p
  else if angle = 90 then ⟨-p.y, p.x⟩
  else if angle = 180 then ⟨-p.x, -p.y⟩
  else ⟨p.y, -p.x⟩

/-- The specification's mirror step: negate x when the kind is `M`. -/
def claimMirror (k : RotKind) (p : Pt) : Pt :=
  if k = RotKind.M then ⟨-p.x, p.y⟩ else p

/-! ## SVG group transforms (claim C3)

An SVG `transform` attribute listing `t1 t2 t3` maps a local point `p` to
`t1 (t2 (t3 p))`: the rightmost entry applies to the point first.  Rotation
is only ever emitted with angles 0/90/180/270, for which the real
sine/cosine values are exactly 0 and ±1, so the rotation table below is
exact; `rotate(θ)` in SVG screen coordinates (y pointing down) maps
`(x,y)` to `(x cos θ − y sin θ, x sin θ + y cos θ)`. -/

/-- One entry of an SVG transform list: `translate(a,b)`, `scale(-1,1)`, or
`rotate(a)` for a multiple of 90 degrees. -/
inductive Xform
  | translate (a b : ℚ)
  | scaleNegX
  | rotate (a : ℤ)
deriving DecidableEq, Repr

/-- Apply a single SVG transform entry to a point. -/
def applyXform : Xform → Pt → Pt
  | Xform.translate a b, p => ⟨p.x + a, p.y + b⟩
  | Xform.scaleNegX, p => ⟨-p.x, p.y⟩
  | Xform.rotate a, p =>
      if a = 90 then ⟨-p.y, p.x⟩
      else if a = 180 then ⟨-p.x, -p.y⟩
      else if a = 270 then ⟨p.y, -p.x⟩
      else p

/-- Apply an SVG transform list: the rightmost entry acts on the point
first, as in the SVG specification. -/
def applyXforms (ts : List Xform) (p : Pt) : Pt :=
  ts.foldr applyXform p

/-- Transform list built by `render_symbol`
(src/generators/symbol_renderer.py lines 52-67, same code in
`SVGGenerator._add_symbols`): `translate(x·scale, y·scale)`, then
`scale(-1,1)` when the kind is `M`, then `rotate(angle)` when the angle is
non-zero — in that string order. -/
def genSymbolTransform (k : RotKind) (angle : ℤ) (x y scale : ℚ) : List Xform :=
  [Xform.translate (x * scale) (y * scale)]
    ++ (if k = RotKind.M then [Xform.scaleNegX] else [])
    ++ (if angle ≠ 0 then [Xform.rotate angle] else [])

/-- Transform list built by `SymbolRenderer.set_transformation`
(src/renderers/symbol_renderer.py lines 87-118): `translate(x,y)`, then
`rotate(angle)` when non-zero, then `scale(-1,1)` when mirrored — rotation
before mirror in the string. -/
def rendSymbolTransform (k : RotKind) (angle : ℤ) (x y : ℚ) : List Xform :=
  [Xform.translate x y]
    ++ (if angle ≠ 0 then [Xform.rotate angle] else [])
    ++ (if k = RotKind.M then [Xform.scaleNegX] else [])

/-- The per-point formulation the claim compares against: translate the
mirror-then-rotate table of §4.1 applied to the local point. -/
def claimPerPoint (k : RotKind) (angle : ℤ) (tx ty : ℚ) (p : Pt) : Pt :=
  ⟨tx + (rotateMirror k angle p).x, ty + (rotateMirror k angle p).y⟩

/-! ## T-junction detection (claim C2)

Wire coordinates are integers: the schematic parser converts every `WIRE`
line with `map(int, ...)` (src/parsers/asc_parser.py, `_parse_wire`), so ℤ
is the exact carrier.  The source normalises an incident wire's direction
to a unit vector with float division and rounds each component to 6
decimals before putting it in a set; two integer direction vectors produce
the same normalised pair exactly when they lie on the same positive ray,
which we canonicalise computably by dividing by the gcd (the 6-decimal
rounding in the source only absorbs binary floating-point error). -/

/-- An integer schematic point (wire endpoint). -/
structure WPt where
  x : ℤ
  y : ℤ
deriving DecidableEq, Repr

/-- A schematic wire `{x1,y1,x2,y2}`. -/
structure Wire where
  x1 : ℤ
  y1 : ℤ
  x2 : ℤ
  y2 : ℤ
deriving DecidableEq, Repr

/-- First endpoint of a wire. -/
def Wire.pa (w : Wire) : WPt := ⟨w.x1, w.y1⟩

/-- Second endpoint of a wire. -/
def Wire.pb (w : Wire) : WPt := ⟨w.x2, w.y2⟩

/-- Number of wire-ends falling on a point: both ends of every wire
contribute one tally each (`point_to_ends` in
`SVGGenerator._find_t_junctions`, also the `occurrence` count in
`SVGRenderer._find_t_junctions`). -/
def endCount (ws : List Wire) (p : WPt) : ℕ :=
  (ws.map (fun w => (if w.pa = p then 1 else 0) + (if w.pb = p then 1 else 0))).sum

/-- All wire endpoints in traversal order. -/
def endpointList (ws : List Wire) : List WPt :=
  ws.flatMap (fun w => [w.pa, w.pb])

/-- Canonical representative of the positive ray spanned by an integer
vector; `none` for the zero vector (the source skips zero-length wires via
its `length > 0` guard). -/
def canonDir (dx dy : ℤ) : Option (ℤ × ℤ) :=
  if dx = 0 ∧ dy = 0 then none
  else some (dx / (Int.gcd dx dy : ℤ), dy / (Int.gcd dx dy : ℤ))

/-- Direction of a wire as seen from point `p`, following the `if`/`elif`
of `SVGGenerator._find_t_junctions` lines 286-293: the first endpoint is
checked first, and a wire touching `p` with neither endpoint contributes
nothing. -/
def wireDirAt (w : Wire) (p : WPt) : Option (ℤ × ℤ) :=
  if w.pa = p then canonDir (w.x2 - w.x1) (w.y2 - w.y1)
  else if w.pb = p then canonDir (w.x1 - w.x2) (w.y1 - w.y2)
  else none

/-- The distinct directions of the wires incident at `p` (the source
collects them in a Python set). -/
def dirsAt (ws : List Wire) (p : WPt) : List (ℤ × ℤ) :=
  (ws.filterMap (fun w => wireDirAt w p)).dedup

/-- Embedding of `SVGGenerator._find_t_junctions`
(src/generators/svg_generator.py lines 264-307): keep the endpoints at
which at least 3 wire-ends meet, that are not symbol terminals, and whose
incident wires span at least 3 distinct directions. -/
def genTJunctions (ws : List Wire) (terminals : List WPt) : List WPt :=
  (endpointList ws).dedup.filter
    (fun p => decide (3 ≤ endCount ws p) && decide (p ∉ terminals)
      && decide (3 ≤ (dirsAt ws p).length))

/-- Embedding of `SVGRenderer._find_t_junctions`
(src/renderers/svg_renderer.py lines 462-504): keep every endpoint whose
occurrence count is at least 3 — no direction test at all. -/
def rendTJunctions (ws : List Wire) : List WPt :=
  (endpointList ws).dedup.filter (fun p => decide (3 ≤ endCount ws p))

/-- Three collinear wire ends meeting at the origin: wires from (0,0) to
(10,0), from (0,0) to (-10,0), and a duplicate from (0,0) to (10,0). -/
def collinearWires : List Wire :=
  [⟨0, 0, 10, 0⟩, ⟨0, 0, -10, 0⟩, ⟨0, 0, 10, 0⟩]

/-! ## Arc flags (claim C5)

`_create_arc` compares `(end_angle - start_angle) % 360` with 180 in
degrees; Python's float `%` with positive divisor 360 yields
`q - 360·⌊q/360⌋`, which is what `fmod360` computes.  `render_arc` first
converts both angles to radians (`x·π/180`) and compares `|Δ|` with π and
the two converted angles with each other; multiplication by the positive
constant π/180 preserves both comparisons exactly, so the degree-level
forms below are the exact real-number semantics of that code. -/

/-- Python's `q % 360.0` for the real value `q`. -/
def fmod360 (q : ℚ) : ℚ := q - 360 * ⌊q / 360⌋

/-- Arc flags of `_create_arc` (src/generators/shape_renderer.py lines
148-150, identical code in `_add_symbols` and the generators
`render_symbol`): large-arc iff `(end-start) % 360 > 180`, sweep fixed 1. -/
def createArcFlags (startAngle endAngle : ℚ) : Bool × Bool :=
  (decide (180 < fmod360 (endAngle - startAngle)), true)

/-- Arc flags of `render_arc` (src/generators/shape_renderer.py lines
296-308): large-arc iff `|end-start| > 180` (no modulo), sweep iff
`end > start`. -/
def renderArcFlags (startAngle endAngle : ℚ) : Bool × Bool :=
  (decide (180 < |endAngle - startAngle|), decide (startAngle < endAngle))

/-- The arc-flag table exactly as the specification states it:
`large_arc = ((end-start) mod 360) > 180`, sweep fixed true. -/
def claimArcFlags (startAngle endAngle : ℚ) : Bool × Bool :=
  (decide (180 < fmod360 (endAngle - startAngle)), true)

/-! ## Circle versus ellipse emission (claim C6) -/

/-- The drawing primitive emitted for a circle/ellipse shape record. -/
inductive CircleOut
  | circle (cx cy r : ℚ)
  | ellipse (cx cy rx ry : ℚ)
deriving DecidableEq, Repr

/-- Whether the emitted primitive is a true circle. -/
def CircleOut.isCircle : CircleOut → Bool
  | CircleOut.circle _ _ _ => true
  | CircleOut.ellipse _ _ _ _ => false

/-- Embedding of `_create_circle` (src/generators/shape_renderer.py lines
62-83): center at the bounding-box midpoint, radii half the absolute side
lengths, and a true circle of radius `rx` exactly when `|rx - ry| < 0.01`. -/
def createCircle (x1 y1 x2 y2 : ℚ) : CircleOut :=
  let cx := (x1 + x2) / 2
  let cy := (y1 + y2) / 2
  let rx := |x2 - x1| / 2
  let ry := |y2 - y1| / 2
  if |rx - ry| < 1 / 100 then CircleOut.circle cx cy rx
  else CircleOut.ellipse cx cy rx ry

/-- Embedding of `render_circle` (src/generators/shape_renderer.py lines
208-233): same center and radii, output coordinates multiplied by `scale`,
but a true circle only when `rx == ry` holds exactly. -/
def renderCircle (x1 y1 x2 y2 scale : ℚ) : CircleOut :=
  let rx := |x2 - x1| / 2
  let ry := |y2 - y1| / 2
  let cx := (x1 + x2) / 2
  let cy := (y1 + y2) / 2
  if rx = ry then CircleOut.circle (cx * scale) (cy * scale) (rx * scale)
  else CircleOut.ellipse (cx * scale) (cy * scale) (rx * scale) (ry * scale)

/-- The circle/ellipse rule exactly as the specification states it: center
`((x1+x2)/2, (y1+y2)/2)`, radii `(|x2-x1|/2, |y2-y1|/2)`, a true circle of
radius rx exactly when `|rx-ry| < 0.01`, otherwise an ellipse. -/
def claimCircle (x1 y1 x2 y2 : ℚ) : CircleOut :=
  if |(|x2 - x1| / 2) - (|y2 - y1| / 2)| < 1 / 100 then
    CircleOut.circle ((x1 + x2) / 2) ((y1 + y2) / 2) (|x2 - x1| / 2)
  else
    CircleOut.ellipse ((x1 + x2) / 2) ((y1 + y2) / 2) (|x2 - x1| / 2) (|y2 - y1| / 2)

/-! ## Dash-array scaling (claim C7)

`_scale_dash_array` splits the pattern on commas, converts every token
with Python's `float(...)`, multiplies by the stroke width and joins the
`str(...)` images back with commas.  Numeric values are modelled as exact
decimals `(m, e)` standing for `m / 10^e`: the tokens of LTspice dash
patterns and the stroke widths are short decimal literals, on which
parsing, multiplication and Python's shortest-repr `str` agree with this
exact-decimal semantics.  Python string helpers are re-implemented over
the character list (`String.data`) because they keep full computability
inside Lean: `splitOnCharList` is `str.split(sep)` for a one-character
separator. -/

/-- `str.split(c)` for a single-character separator: `""` splits to
`[""]`, separators at the ends produce empty fields. -/
def splitOnCharList (sep : Char) : List Char → List (List Char)
  | [] => [[]]
  | c :: cs =>
      match splitOnCharList sep cs with
      | [] => [[]]
      | h :: t => if c = sep then [] :: h :: t else (c :: h) :: t

/-- Decimal digit test (`'0'` to `'9'`). -/
def isDigitCh (c : Char) : Bool := 48 ≤ c.toNat && c.toNat ≤ 57

/-- Value of a decimal digit list, most significant first. -/
def digitsToNat (cs : List Char) : ℕ :=
  cs.foldl (fun n c => 10 * n + (c.toNat - 48)) 0

/-- An exact decimal `(m, e)` denoting `m / 10^e`. -/
abbrev Dec := ℤ × ℕ

/-- The rational value of an exact decimal. -/
def decToRat (d : Dec) : ℚ := (d.1 : ℚ) / (10 : ℚ) ^ d.2

/-- Exact product of two decimals. -/
def decMul (a b : Dec) : Dec := (a.1 * b.1, a.2 + b.2)

/-- Leading-sign split: `(negative, rest)`. -/
def splitSign : List Char → Bool × List Char
  | [] => (false, [])
  | c :: cs =>
      if c = '-' then (true, cs)
      else if c = '+' then (false, cs)
      else (false, c :: cs)

/-- Unsigned mantissa of a float literal: digits with an optional decimal
point, at least one digit overall. -/
def parseMantissa (cs : List Char) : Option Dec :=
  match splitOnCharList (Char.ofNat 46) cs with
  | [ip] =>
      if ip ≠ [] ∧ ip.all isDigitCh then some ((digitsToNat ip : ℤ), 0) else none
  | [ip, fp] =>
      if (ip ≠ [] ∨ fp ≠ []) ∧ ip.all isDigitCh ∧ fp.all isDigitCh then
        some ((digitsToNat (ip ++ fp) : ℤ), fp.length)
      else none
  | _ => none

/-- Signed exponent part of a float literal. -/
def parseExp (cs : List Char) : Option ℤ :=
  let s := splitSign cs
  if s.2 ≠ [] ∧ s.2.all isDigitCh then
    some (if s.1 then -(digitsToNat s.2 : ℤ) else (digitsToNat s.2 : ℤ))
  else none

/-- Shift a decimal by `10^k`. -/
def applyExp (d : Dec) (k : ℤ) : Dec :=
  if 0 ≤ k then (d.1 * 10 ^ k.toNat, d.2) else (d.1, d.2 + (-k).toNat)

/-- Negate a decimal when the sign flag is set. -/
def applySign (neg : Bool) (d : Dec) : Dec := (if neg then -d.1 else d.1, d.2)

/-- Python's `float(token)` on a finite decimal literal: optional sign,
digits with optional fraction, optional `e`/`E` exponent; `none` when the
token is not numeric (surrounding whitespace, digit-group underscores and
`inf`/`nan` are not modelled — dash tokens never carry them). -/
def pyFloatDec (cs : List Char) : Option Dec :=
  let s := splitSign cs
  match splitOnCharList (Char.ofNat 101) (s.2.map (fun c => if c = Char.ofNat 69 then Char.ofNat 101 else c)) with
  | [m] => (parseMantissa m).map (applySign s.1)
  | [m, ex] =>
      (parseMantissa m).bind (fun d => (parseExp ex).map (fun k => applySign s.1 (applyExp d k)))
  | _ => none

/-- Drop factors of ten shared between mantissa and exponent. -/
def stripZeros : ℤ → ℕ → Dec
  | m, 0 => (m, 0)
  | m, e + 1 => if m % 10 = 0 then stripZeros (m / 10) e else (m, e + 1)

/-- Left-pad a numeral with zeros to the requested width. -/
def padZeros (s : String) (n : ℕ) : String :=
  String.mk (List.replicate (n - s.length) (Char.ofNat 48)) ++ s

/-- Python's `str(x)` for a float holding the exact decimal `d`: the
shortest decimal representation, with a forced `.0` on integral values. -/
def printDec (d : Dec) : String :=
  let s := stripZeros d.1 d.2
  if s.2 = 0 then toString s.1 ++ ".0"
  else
    (if s.1 < 0 then "-" else "") ++ toString (s.1.natAbs / 10 ^ s.2) ++ "."
      ++ padZeros (toString (s.1.natAbs % 10 ^ s.2)) s.2

/-- Error signalled when a dash token is not numeric (`float(...)` raises
`ValueError` in the source; the specification calls the typed failure
`InvalidStyleError`). -/
inductive StyleErr
  | invalidStyle
deriving DecidableEq, Repr

/-- Scale the already-split tokens by the stroke width, failing on the
first non-numeric token, in the evaluation order of the generator
expression `float(x) * stroke_width for x in dash_array.split(',')`. -/
def scaleTokens (width : Dec) : List (List Char) → Except StyleErr (List Dec)
  | [] => Except.ok []
  | tok :: rest =>
      match pyFloatDec tok with
      | none => Except.error StyleErr.invalidStyle
      | some v =>
          match scaleTokens width rest with
          | Except.error e => Except.error e
          | Except.ok vs => Except.ok (decMul v width :: vs)

/-- The scaled numeric values of a dash pattern. -/
def scaleDashValues (pattern : String) (width : Dec) : Except StyleErr (List Dec) :=
  scaleTokens width (splitOnCharList (Char.ofNat 44) pattern.data)

/-- Embedding of `_scale_dash_array` (src/generators/shape_renderer.py
lines 9-13): an empty pattern yields `None` (no dash attribute); otherwise
every comma-separated token is converted, multiplied by the stroke width
and the `str` images are joined with commas; a non-numeric token raises. -/
def scaleDashArray (pattern : String) (width : Dec) : Except StyleErr (Option String) :=
  if pattern = "" then Except.ok none
  else (scaleDashValues pattern width).map
    (fun vs => some (String.intercalate "," (vs.map printDec)))

/-! ## Text rendering (claims C8 and C10)

Embedding of `TextRenderer.render` (src/renderers/text_renderer.py).
Float literals (0.3, 0.6, 1.2, the multiplier table) are modelled by their
decimal values in ℚ.  The renderer resolves the font-size multiplier with
`SIZE_MULTIPLIERS.get(index, SIZE_MULTIPLIERS[2])`, a total lookup. -/

/-- A text record `{x, y, text, justification, size_multiplier, type}`. -/
structure TextRec where
  x : ℚ
  y : ℚ
  text : String
  justification : String
  sizeMultiplier : ℤ
  ttype : String
deriving DecidableEq, Repr

/-- The `SIZE_MULTIPLIERS` table with its `.get` default of
`SIZE_MULTIPLIERS[2] = 1.5` for any index outside 0-7. -/
def sizeMultiplierVal (i : ℤ) : ℚ :=
  if i = 0 then 5 / 8
  else if i = 1 then 1
  else if i = 2 then 3 / 2
  else if i = 3 then 2
  else if i = 4 then 5 / 2
  else if i = 5 then 7 / 2
  else if i = 6 then 5
  else if i = 7 then 7
  else 3 / 2

/-- Type-dependent prefix stripping of `TextRenderer.render`: a leading
`!` is dropped from a spice directive, a leading `;` from a comment. -/
def strippedContent (t : TextRec) : List Char :=
  match t.text.data with
  | [] => []
  | c :: rest =>
      if t.ttype = "spice" ∧ c = Char.ofNat 33 then rest
      else if t.ttype = "comment" ∧ c = Char.ofNat 59 then rest
      else c :: rest

/-- `justification.startswith('V')`. -/
def isVerticalJust (j : String) : Bool :=
  match j.data with
  | c :: _ => c = Char.ofNat 86
  | [] => false

/-- Anchor mapping of the renderer: Left → start, Right → end, anything
else → middle. -/
def anchorOf (j : String) : String :=
  if j = "Left" then "start"
  else if j = "Right" then "end"
  else "middle"

/-- Baseline offset of the renderer: Left/Center/Right → `0.3·font_size`,
Top → `0.6·font_size`, anything else (Bottom) → `0.0`. -/
def yOffsetOf (j : String) (fontSize : ℚ) : ℚ :=
  if j = "Left" ∨ j = "Center" ∨ j = "Right" then fontSize * (3 / 10)
  else if j = "Top" then fontSize * (6 / 10)
  else fontSize * 0

/-- One positioned text run. -/
structure TextRun where
  x : ℚ
  y : ℚ
  content : String
  anchor : String
  fontSize : ℚ
deriving DecidableEq, Repr

/-- `_create_multiline_text`: line `i` is placed at
`y + i·(font_size·1.2)`, all lines sharing x, anchor and font size. -/
def multilineRuns (x y fontSize : ℚ) (anchor : String) :
    ℕ → List (List Char) → List TextRun
  | _, [] => []
  | i, line :: rest =>
      ⟨x, y + i * (fontSize * (6 / 5)), String.mk line, anchor, fontSize⟩
        :: multilineRuns x y fontSize anchor (i + 1) rest

/-- Output of one `TextRenderer.render` call: the runs plus whether the
whole group is wrapped in the vertical-text rotation. -/
structure TextOut where
  runs : List TextRun
  rotated : Bool
deriving DecidableEq, Repr

/-- Embedding of `TextRenderer.render` (src/renderers/text_renderer.py
lines 24-108): empty text yields nothing; otherwise the prefix is
stripped, the font size is `base · SIZE_MULTIPLIERS.get(index, 1.5)`, a
leading `V` selects vertical mode and is dropped before anchor handling,
and the content is split on newlines into stacked runs. -/
def renderText (t : TextRec) (baseFontSize : ℚ) : TextOut :=
  if t.text = "" then ⟨[], false⟩
  else
    let fontSize := baseFontSize * sizeMultiplierVal t.sizeMultiplier
    let vertical := isVerticalJust t.justification
    let j := if vertical then String.mk t.justification.data.tail else t.justification
    ⟨multilineRuns t.x (t.y + yOffsetOf j fontSize) fontSize (anchorOf j) 0
        (splitOnCharList (Char.ofNat 10) (strippedContent t)),
      vertical⟩

/-- The claim's anchor table: Left → start, Right → end, any other value
(Center/Top/Bottom) → middle. -/
def claimAnchor (j : String) : String :=
  if j = "Left" then "start"
  else if j = "Right" then "end"
  else "middle"

/-- The claim's baseline offsets: `+0.3·font_size` for Left/Center/Right,
`+0.6·font_size` for Top, `+0.0` for Bottom. -/
def claimYOffset (j : String) (fontSize : ℚ) : ℚ :=
  if j = "Left" ∨ j = "Center" ∨ j = "Right" then (3 / 10) * fontSize
  else if j = "Top" then (6 / 10) * fontSize
  else 0

/-- The claim's multiline placement: line `i` at `y + i·1.2·font_size`,
sharing x and anchor. -/
def claimRunsAux (x y fontSize : ℚ) (anchor : String) :
    ℕ → List (List Char) → List TextRun
  | _, [] => []
  | i, line :: rest =>
      ⟨x, y + i * ((6 / 5) * fontSize), String.mk line, anchor, fontSize⟩
        :: claimRunsAux x y fontSize anchor (i + 1) rest

/-- The run list claim C8 describes. -/
def claimRuns (t : TextRec) (baseFontSize : ℚ) : List TextRun :=
  let fontSize := baseFontSize * sizeMultiplierVal t.sizeMultiplier
  claimRunsAux t.x (t.y + claimYOffset t.justification fontSize) fontSize
    (claimAnchor t.justification) 0
    (splitOnCharList (Char.ofNat 10) (strippedContent t))

/-! ## Window property resolution (claim C4)

Embedding of `SymbolRenderer._render_window_property`
(src/renderers/symbol_renderer.py lines 265-330).  A symbol definition's
`windows` dict maps string property ids to window placements; an
instance's `window_overrides` dict may be keyed by integers or strings.
Window coordinates are integers (the `WINDOW` parser converts them with
`int(...)`); the `size_multiplier` field is carried through unchanged. -/

/-- A window placement `{x, y, justification, size_multiplier}`. -/
structure WindowDef where
  wx : ℤ
  wy : ℤ
  justification : String
  sizeMultiplier : ℤ
deriving DecidableEq, Repr

/-- A key of the `window_overrides` dict: Python allows both integer and
string keys side by side. -/
inductive OvKey
  | ival (n : ℤ)
  | sval (s : String)
deriving DecidableEq, Repr

/-- First-match association lookup (dict indexing). -/
def assocLookup {α β : Type} [DecidableEq α] : List (α × β) → α → Option β
  | [], _ => none
  | (k, v) :: rest, a => if k = a then some v else assocLookup rest a

/-- Python's `int(property_id)` as used for the override lookup: an
optionally minus-signed digit string; `none` models the caught
`ValueError`. -/
def parseIntStr (s : String) : Option ℤ :=
  match s.data with
  | [] => none
  | c :: cs =>
      if c = Char.ofNat 45 then
        if cs ≠ [] ∧ cs.all isDigitCh then some (-(digitsToNat cs : ℤ)) else none
      else
        if (c :: cs).all isDigitCh then some ((digitsToNat (c :: cs) : ℤ)) else none

/-- The window text handed to the text renderer. -/
structure WindowText where
  wx : ℤ
  wy : ℤ
  text : String
  justification : String
  sizeMultiplier : ℤ
  isMirrored : Bool
deriving DecidableEq, Repr

/-- Embedding of `_render_window_property`: nothing is emitted when the
definition has no windows at all or no entry for the property; otherwise
the override under the integer key is preferred, then the override under
the string key, then the definition's entry (`window_settings` in the
source), and the property value is emitted there. -/
def renderWindowProperty (windows : List (String × WindowDef))
    (overrides : List (OvKey × WindowDef)) (propertyId : String)
    (propertyValue : String) (isMirrored : Bool) : Option WindowText :=
  if windows = [] then none
  else
    match assocLookup windows propertyId with
    | none => none
    | some windowDef =>
        let settings :=
          match parseIntStr propertyId with
          | some n =>
              match assocLookup overrides (OvKey.ival n) with
              | some ov => ov
              | none =>
                  match assocLookup overrides (OvKey.sval propertyId) with
                  | some ov => ov
                  | none => windowDef
          | none =>
              match assocLookup overrides (OvKey.sval propertyId) with
              | some ov => ov
              | none => windowDef
        some ⟨settings.wx, settings.wy, propertyValue, settings.justification,
          settings.sizeMultiplier, isMirrored⟩

/-- The claim's override lookup: the integer key form is checked first,
then the string key form. -/
def claimOverrideFor (overrides : List (OvKey × WindowDef))
    (propertyId : String) : Option WindowDef :=
  match parseIntStr propertyId with
  | some n =>
      match assocLookup overrides (OvKey.ival n) with
      | some ov => some ov
      | none => assocLookup overrides (OvKey.sval propertyId)
  | none => assocLookup overrides (OvKey.sval propertyId)

/-- The resolution chain exactly as claim C4 states it: the override when
present, otherwise the definition's windows entry, otherwise the built-in
default ({x:0, y:-16, Center, 2} for property 0 and {x:0, y:16, Center, 2}
for property 3). -/
def claimWindowResolve (windows : List (String × WindowDef))
    (overrides : List (OvKey × WindowDef)) (propertyId : String) :
    Option WindowDef :=
  match claimOverrideFor overrides propertyId with
  | some ov => some ov
  | none =>
      match assocLookup windows propertyId with
      | some d => some d
      | none =>
          if propertyId = "0" then some ⟨0, -16, "Center", 2⟩
          else if propertyId = "3" then some ⟨0, 16, "Center", 2⟩
          else none

/-- The amended resolution: only when the definition's windows map has an
entry for the property is anything emitted, and then the override (integer
key first, string key second) supersedes that entry; the built-in default
is never consulted. -/
def claimAmendedResolve (windows : List (String × WindowDef))
    (overrides : List (OvKey × WindowDef)) (propertyId : String) :
    Option WindowDef :=
  match assocLookup windows propertyId with
  | none => none
  | some d => some ((claimOverrideFor overrides propertyId).getD d)

/-! ## Missing symbol definitions (claim C9)

Embedding of the per-symbol loop of `SVGRenderer.render_symbols`
(src/renderers/svg_renderer.py lines 248-322): for each instance, an empty
or unknown `symbol_name` logs a warning and skips the instance; with the
`no_nested_symbol_text` option a definition containing no shapes at all is
skipped silently; otherwise the renderer is invoked with the instance and
its definition (`render_data`).  The rendered output of one instance is
modelled as that invocation. -/

/-- A symbol definition: shape lists, embedded texts and windows. -/
structure SymbolDef where
  defLines : List Wire
  defCircles : List Wire
  defRectangles : List Wire
  defArcs : List Wire
  defTexts : List TextRec
  windows : List (String × WindowDef)
deriving DecidableEq, Repr

/-- A placed symbol instance. -/
structure SymInst where
  symbolName : String
  instanceName : String
  value : String
  sx : ℤ
  sy : ℤ
  rotation : String
  overrides : List (OvKey × WindowDef)
deriving DecidableEq, Repr

/-- `not any([lines, circles, rectangles, arcs])`: the definition draws
nothing. -/
def textOnlyDef (d : SymbolDef) : Bool :=
  d.defLines.isEmpty && d.defCircles.isEmpty
    && d.defRectangles.isEmpty && d.defArcs.isEmpty

/-- The warning logged for a missing definition. -/
def missingWarning (name : String) : String :=
  "Symbol definition not found for " ++ name

/-- The per-instance loop of `render_symbols`: returns the render calls
made (instance paired with its definition) and the warnings logged, in
schematic order. -/
def renderSymbols (lib : List (String × SymbolDef)) (noNestedText : Bool) :
    List SymInst → List (SymInst × SymbolDef) × List String
  | [] => ([], [])
  | s :: rest =>
      let r := renderSymbols lib noNestedText rest
      if s.symbolName = "" then (r.1, missingWarning s.symbolName :: r.2)
      else
        match assocLookup lib s.symbolName with
        | none => (r.1, missingWarning s.symbolName :: r.2)
        | some d =>
            if noNestedText && textOnlyDef d then r
            else ((s, d) :: r.1, r.2)

/-- A one-entry library and three instances for the C9 witness: a
resistor-like definition, a good instance before and after, and an
unknown instance in the middle. -/
def resDef : SymbolDef :=
  ⟨[⟨0, 0, 0, 16⟩, ⟨0, 16, 8, 24⟩], [], [], [], [], [("0", ⟨0, -16, "Center", 2⟩)]⟩

/-- The resistor instance used in the C9 witness. -/
def resInst : SymInst := ⟨"RES", "R1", "10k", 100, 200, "R0", []⟩

/-- The unknown instance used in the C9 witness. -/
def ghostInst : SymInst := ⟨"GHOST", "X1", "", 0, 0, "R0", []⟩

/-- A second resistor instance used in the C9 witness. -/
def resInst2 : SymInst := ⟨"RES", "R2", "20k", 300, 200, "M90", []⟩

/-! ## Theorems -/

/-- C1: for every point and every rotation code with kind in R/M and angle in
0/90/180/270, the implemented point transform negates x first (kind M) and
then applies exactly the fixed table. -/
theorem c1_rotate_mirror_table (k : RotKind) (angle : ℤ)
    (h : angle = 0 ∨ angle = 90 ∨ angle = 180 ∨ angle = 270) (p : Pt) :
    rotateMirror k angle p = claimRotTable angle (claimMirror k p) := by
  rcases h with h | h | h | h <;> subst h <;> cases k <;>
    simp [rotateMirror, claimRotTable, claimMirror]

/-- Witness for C1 at kind M, angle 90, point (3,5). -/
theorem c1_rotate_mirror_table_witness :
    rotateMirror RotKind.M 90 ⟨3, 5⟩ = claimRotTable 90 (claimMirror RotKind.M ⟨3, 5⟩) :=
  c1_rotate_mirror_table RotKind.M 90 (Or.inr (Or.inl rfl)) ⟨3, 5⟩

/-- C3 counterexample: with kind `M`, angle 90, instance position (0,0) and
scale 1, the group transform built by the generators-variant symbol
instantiator (`translate scale(-1,1) rotate(90)`, the order the claim
states) sends the local point (0,1) to (1,0), while translating the
per-point mirror-then-rotate table sends it to (-1,0); the two
formulations are not equivalent. -/
theorem c3_counterexample :
    applyXforms (genSymbolTransform RotKind.M 90 0 0 1) ⟨0, 1⟩ = ⟨1, 0⟩
      ∧ claimPerPoint RotKind.M 90 0 0 ⟨0, 1⟩ = ⟨-1, 0⟩
      ∧ applyXforms (genSymbolTransform RotKind.M 90 0 0 1) ⟨0, 1⟩
          ≠ claimPerPoint RotKind.M 90 0 0 ⟨0, 1⟩ := by
  refine ⟨?_, ?_, ?_⟩ <;>
    simp [applyXforms, applyXform, genSymbolTransform, claimPerPoint,
      rotateMirror, Pt.mk.injEq] <;>
    norm_num

/-- C3 amended: the renderers-variant group transform
(`translate rotate scale(-1,1)` string order) yields exactly the translated
per-point mirror-then-rotate table for both kinds and all four angles,
while the generators-variant group transform
(`translate scale(-1,1) rotate` string order) agrees with the per-point
table exactly on kind `R`, or on angles 0 and 180 where the mirror and the
rotation commute. -/
theorem c3_group_vs_per_point (k : RotKind) (angle : ℤ)
    (h : angle = 0 ∨ angle = 90 ∨ angle = 180 ∨ angle = 270)
    (x y scale : ℚ) (p : Pt) :
    (applyXforms (rendSymbolTransform k angle x y) p = claimPerPoint k angle x y p)
      ∧ (k = RotKind.R ∨ angle = 0 ∨ angle = 180 →
          applyXforms (genSymbolTransform k angle x y scale) p
            = claimPerPoint k angle (x * scale) (y * scale) p) := by
  rcases h with h | h | h | h <;> subst h <;> cases k <;>
    constructor <;>
      first
        | (intro hq
           rcases hq with hq | hq | hq <;> simp_all <;>
             simp [applyXforms, applyXform, genSymbolTransform, rendSymbolTransform,
               claimPerPoint, rotateMirror, add_comm])
        | simp [applyXforms, applyXform, genSymbolTransform, rendSymbolTransform,
            claimPerPoint, rotateMirror, add_comm]

/-- Witness for C3 amended at kind M, angle 90. -/
theorem c3_group_vs_per_point_witness :
    applyXforms (rendSymbolTransform RotKind.M 90 7 11 ) ⟨2, 3⟩
      = claimPerPoint RotKind.M 90 7 11 ⟨2, 3⟩ :=
  (c3_group_vs_per_point RotKind.M 90 (Or.inr (Or.inl rfl)) 7 11 1 ⟨2, 3⟩).1

/-- A point with at least one wire-end on it is a wire endpoint. -/
theorem mem_endpointList_of_endCount {ws : List Wire} {p : WPt}
    (h : 0 < endCount ws p) : p ∈ endpointList ws := by
  induction ws with
  | nil => simp [endCount] at h
  | cons w ws ih =>
      by_cases h1 : w.pa = p
      · simp [endpointList, List.flatMap_cons, h1]
      · by_cases h2 : w.pb = p
        · simp [endpointList, List.flatMap_cons, h2]
        · have hrest : 0 < endCount ws p := by
            simpa [endCount, h1, h2] using h
          simp only [endpointList, List.flatMap_cons, List.mem_append]
          exact Or.inr (ih hrest)

/-- C2 counterexample: at (0,0) three wire-ends coincide but the incident
wires span only 2 distinct directions, so by the claim the point must not
be returned — yet the `SVGRenderer` T-junction computation returns it (its
code counts occurrences only and never looks at directions); the
`SVGGenerator` variant correctly omits it. -/
theorem c2_counterexample :
    endCount collinearWires ⟨0, 0⟩ = 3
      ∧ (dirsAt collinearWires ⟨0, 0⟩).length = 2
      ∧ ⟨0, 0⟩ ∈ rendTJunctions collinearWires
      ∧ ⟨0, 0⟩ ∉ genTJunctions collinearWires [] := by
  refine ⟨by decide, by decide, by decide, by decide⟩

/-- C2 amended: the `SVGGenerator` variant returns exactly the points with
at least 3 coincident wire-ends that are not symbol terminals and whose
incident wires span at least 3 distinct directions; the `SVGRenderer`
variant (used by the renderers pipeline and its tests) returns every point
with at least 3 coincident wire-ends, with no direction test. -/
theorem c2_t_junction_characterisation (ws : List Wire) (ts : List WPt) (p : WPt) :
    (p ∈ genTJunctions ws ts
        ↔ 3 ≤ endCount ws p ∧ p ∉ ts ∧ 3 ≤ (dirsAt ws p).length)
      ∧ (p ∈ rendTJunctions ws ↔ 3 ≤ endCount ws p) := by
  constructor
  · simp only [genTJunctions, List.mem_filter, List.mem_dedup,
      Bool.and_eq_true, decide_eq_true_eq]
    constructor
    · rintro ⟨_, ⟨h1, h2⟩, h3⟩
      exact ⟨h1, h2, h3⟩
    · rintro ⟨h1, h2, h3⟩
      exact ⟨mem_endpointList_of_endCount (by omega), ⟨h1, h2⟩, h3⟩
  · simp only [rendTJunctions, List.mem_filter, List.mem_dedup,
      decide_eq_true_eq]
    constructor
    · rintro ⟨_, h1⟩
      exact h1
    · intro h1
      exact ⟨mem_endpointList_of_endCount (by omega), h1⟩

/-- C5 counterexample: for the arc from 90° to 0°, `render_arc` emits
sweep flag 0, refuting the claim that the emitted sweep flag is constantly
1 for every arc; `_create_arc` on the same arc emits (1,1) as the claim
predicts. -/
theorem c5_counterexample :
    renderArcFlags 90 0 = (false, false) ∧ createArcFlags 90 0 = (true, true) := by
  have hfloor : ⌊((0 : ℚ) - 90) / 360⌋ = -1 := by norm_num
  constructor
  · simp only [renderArcFlags, Prod.mk.injEq, decide_eq_false_iff_not, not_lt]
    norm_num
  · simp only [createArcFlags, fmod360, hfloor, Prod.mk.injEq, decide_eq_true_eq]
    norm_num

/-- C5 amended: the `_create_arc` variant (also used for symbol arcs) sets
the large-arc flag exactly by `((end-start) mod 360) > 180` with the sweep
flag fixed at 1, as the claim states; the legacy `render_arc` variant
instead sets large-arc iff `|end-start| > 180` and derives the sweep flag
from the sign of the angle delta, so its sweep flag is 1 exactly when
`end > start`. -/
theorem c5_arc_flags (startAngle endAngle : ℚ) :
    createArcFlags startAngle endAngle = claimArcFlags startAngle endAngle
      ∧ ((renderArcFlags startAngle endAngle).1 = true
          ↔ 180 < |endAngle - startAngle|)
      ∧ ((renderArcFlags startAngle endAngle).2 = true
          ↔ startAngle < endAngle) := by
  refine ⟨rfl, ?_, ?_⟩ <;> simp [renderArcFlags]

/-- C6 counterexample: the bounding box (0,0)-(2,2.01) has rx = 1 and
ry = 1.005, whose difference 0.005 is below the 0.01 threshold, so by the
claim a true circle must be emitted — yet `render_circle` emits an ellipse
because its test is exact equality; `_create_circle` emits the circle. -/
theorem c6_counterexample :
    |(|(2 : ℚ) - 0| / 2) - (|(201 / 100 : ℚ) - 0| / 2)| < 1 / 100
      ∧ renderCircle 0 0 2 (201 / 100) 1
          = CircleOut.ellipse 1 (201 / 200) 1 (201 / 200)
      ∧ createCircle 0 0 2 (201 / 100) = CircleOut.circle 1 (201 / 200) 1 := by
  have h1 : |(2 : ℚ) - 0| = 2 := by norm_num
  have h2 : |(201 / 100 : ℚ) - 0| = 201 / 100 := by norm_num
  have h3 : |(2 : ℚ) / 2 - 201 / 100 / 2| < 1 / 100 := by
    rw [show (2 : ℚ) / 2 - 201 / 100 / 2 = -(1 / 200) by norm_num, abs_neg,
      abs_of_nonneg (by norm_num : (0 : ℚ) ≤ 1 / 200)]
    norm_num
  refine ⟨by rw [h1, h2]; exact h3, ?_, ?_⟩
  · simp only [renderCircle, h1, h2]
    rw [if_neg (by norm_num)]
    norm_num
  · simp only [createCircle, h1, h2]
    rw [if_pos h3]
    norm_num

/-- C6 amended: `_create_circle` emits exactly as the claim states (true
circle iff the radii differ by less than 0.01); the `render_circle` variant
computes the same center and radii but emits a true circle only when
`rx = ry` holds exactly, rendering any smaller non-zero discrepancy as an
ellipse. -/
theorem c6_circle_rule (x1 y1 x2 y2 scale : ℚ) :
    createCircle x1 y1 x2 y2 = claimCircle x1 y1 x2 y2
      ∧ ((renderCircle x1 y1 x2 y2 scale).isCircle = true
          ↔ |x2 - x1| / 2 = |y2 - y1| / 2) := by
  constructor
  · rfl
  · by_cases h : |x2 - x1| / 2 = |y2 - y1| / 2 <;>
      simp [renderCircle, CircleOut.isCircle, h]

/-- A non-numeric token anywhere makes the token scaling fail. -/
theorem scaleTokens_error_of_bad {toks : List (List Char)} (width : Dec)
    (h : ∃ tok ∈ toks, pyFloatDec tok = none) :
    scaleTokens width toks = Except.error StyleErr.invalidStyle := by
  induction toks with
  | nil => simp at h
  | cons tok rest ih =>
      obtain ⟨bad, hmem, hbad⟩ := h
      rcases List.mem_cons.mp hmem with hbad1 | hmem1
      · subst hbad1
        simp [scaleTokens, hbad]
      · cases htok : pyFloatDec tok with
        | none => simp [scaleTokens, htok]
        | some v =>
            have hr := ih ⟨bad, hmem1, hbad⟩
            simp [scaleTokens, htok, hr]

/-- When token scaling succeeds, every output value is the parsed token
value multiplied by the stroke width. -/
theorem scaleTokens_ok_values {toks : List (List Char)} {width : Dec}
    {vs : List Dec} (h : scaleTokens width toks = Except.ok vs) :
    List.Forall₂
      (fun tok v => ∃ d, pyFloatDec tok = some d ∧ decToRat v = decToRat d * decToRat width)
      toks vs := by
  induction toks generalizing vs with
  | nil =>
      simp [scaleTokens] at h
      subst h
      exact List.Forall₂.nil
  | cons tok rest ih =>
      cases htok : pyFloatDec tok with
      | none => simp [scaleTokens, htok] at h
      | some d =>
          cases hrest : scaleTokens width rest with
          | error e => simp [scaleTokens, htok, hrest] at h
          | ok ws =>
              simp only [scaleTokens, htok, hrest] at h
              cases h
              refine List.Forall₂.cons ⟨d, htok, ?_⟩ (ih hrest)
              simp only [decToRat, decMul]
              push_cast
              rw [pow_add]
              ring

/-- C7: dash scaling multiplies each comma-separated numeric token by the
stroke width — concretely `scale_dash_array("4,2", 2.0) = "8.0,4.0"` — an
empty pattern yields no dash attribute for every stroke width, and a
pattern containing a non-numeric token signals the style error with no
dash output produced. -/
theorem c7_scale_dash_array :
    scaleDashArray "4,2" (2, 0) = Except.ok (some "8.0,4.0")
      ∧ (∀ width : Dec, scaleDashArray "" width = Except.ok none)
      ∧ (∀ (pattern : String) (width : Dec), pattern ≠ "" →
          (∃ tok ∈ splitOnCharList (Char.ofNat 44) pattern.data, pyFloatDec tok = none) →
          scaleDashArray pattern width = Except.error StyleErr.invalidStyle)
      ∧ (∀ (pattern : String) (width : Dec) (vs : List Dec),
          scaleDashValues pattern width = Except.ok vs →
          List.Forall₂
            (fun tok v => ∃ d, pyFloatDec tok = some d
              ∧ decToRat v = decToRat d * decToRat width)
            (splitOnCharList (Char.ofNat 44) pattern.data) vs) := by
  refine ⟨by rfl, fun width => rfl, ?_, ?_⟩
  · intro pattern width hne hbad
    rw [scaleDashArray, if_neg hne, scaleDashValues,
      scaleTokens_error_of_bad width hbad]
    rfl
  · intro pattern width vs h
    exact scaleTokens_ok_values h

/-- Witness for C7: the pattern `"4,a"` is non-empty and contains the
non-numeric token `"a"`, so the scaling fails. -/
theorem c7_scale_dash_array_witness :
    scaleDashArray "4,a" (2, 0) = Except.error StyleErr.invalidStyle :=
  c7_scale_dash_array.2.2.1 "4,a" (2, 0) (by decide)
    ⟨[Char.ofNat 97], by decide, by decide⟩

/-- The two multiline formulations coincide. -/
theorem multilineRuns_eq_claimRunsAux (x y fontSize : ℚ) (anchor : String) :
    ∀ (i : ℕ) (ls : List (List Char)),
      multilineRuns x y fontSize anchor i ls = claimRunsAux x y fontSize anchor i ls := by
  intro i ls
  induction ls generalizing i with
  | nil => rfl
  | cons line rest ih =>
      simp only [multilineRuns, claimRunsAux, ih, List.cons.injEq, and_true,
        TextRun.mk.injEq, true_and]
      ring

/-- C8: for a text record with a non-vertical justification, the renderer
emits no rotation wrapper, maps Left to start and Right to end and the
rest to middle, offsets the baseline by 0.3/0.6/0.0 of the font size, and
splits the content on newlines into runs at `y + i·1.2·font_size` sharing
x and anchor — exactly the run list the claim formulates. -/
theorem c8_text_layout (t : TextRec) (baseFontSize : ℚ)
    (h1 : t.justification = "Left" ∨ t.justification = "Center"
      ∨ t.justification = "Right" ∨ t.justification = "Top"
      ∨ t.justification = "Bottom")
    (h2 : t.text ≠ "") :
    (renderText t baseFontSize).rotated = false
      ∧ (renderText t baseFontSize).runs = claimRuns t baseFontSize := by
  have hv : isVerticalJust t.justification = false := by
    rcases h1 with h | h | h | h | h <;> rw [h] <;> rfl
  have hoff : ∀ fs : ℚ, yOffsetOf t.justification fs = claimYOffset t.justification fs := by
    intro fs
    rcases h1 with h | h | h | h | h <;> rw [h]
    · rw [show yOffsetOf "Left" fs = fs * (3 / 10) from rfl,
        show claimYOffset "Left" fs = 3 / 10 * fs from rfl]
      ring
    · rw [show yOffsetOf "Center" fs = fs * (3 / 10) from rfl,
        show claimYOffset "Center" fs = 3 / 10 * fs from rfl]
      ring
    · rw [show yOffsetOf "Right" fs = fs * (3 / 10) from rfl,
        show claimYOffset "Right" fs = 3 / 10 * fs from rfl]
      ring
    · rw [show yOffsetOf "Top" fs = fs * (6 / 10) from rfl,
        show claimYOffset "Top" fs = 6 / 10 * fs from rfl]
      ring
    · rw [show yOffsetOf "Bottom" fs = fs * 0 from rfl,
        show claimYOffset "Bottom" fs = 0 from rfl]
      ring
  constructor
  · simp [renderText, if_neg h2, hv]
  · simp only [renderText, if_neg h2, hv, Bool.false_eq_true, if_false, claimRuns,
      multilineRuns_eq_claimRunsAux]
    rw [hoff]
    rfl

/-- Witness for C8: the multiline example of the specification, a
two-line "A\nB" comment at base font size 20 with multiplier index 1. -/
theorem c8_text_layout_witness :
    (renderText ⟨0, 0, "A\nB", "Left", 1, "comment"⟩ 20).rotated = false
      ∧ (renderText ⟨0, 0, "A\nB", "Left", 1, "comment"⟩ 20).runs
          = claimRuns ⟨0, 0, "A\nB", "Left", 1, "comment"⟩ 20 :=
  c8_text_layout ⟨0, 0, "A\nB", "Left", 1, "comment"⟩ 20 (Or.inl rfl) (by decide)

/-- Every run produced by the multiline splitter carries the font size it
was given. -/
theorem multilineRuns_fontSize (x y fontSize : ℚ) (anchor : String) :
    ∀ (i : ℕ) (ls : List (List Char)) (r : TextRun),
      r ∈ multilineRuns x y fontSize anchor i ls → r.fontSize = fontSize := by
  intro i ls
  induction ls generalizing i with
  | nil => intro r hr; simp [multilineRuns] at hr
  | cons line rest ih =>
      intro r hr
      rcases List.mem_cons.mp hr with h | h
      · rw [h]
      · exact ih (i + 1) r h

/-- C10: for a size-multiplier index outside 0-7 the font-size lookup is
total and resolves to the default multiplier 1.5, so the text renderer
does not fail and renders every run at 1.5× the base font size. -/
theorem c10_size_multiplier_total (t : TextRec) (baseFontSize : ℚ)
    (h : t.sizeMultiplier < 0 ∨ 7 < t.sizeMultiplier) :
    sizeMultiplierVal t.sizeMultiplier = 3 / 2
      ∧ ∀ r ∈ (renderText t baseFontSize).runs,
          r.fontSize = baseFontSize * (3 / 2) := by
  have hval : sizeMultiplierVal t.sizeMultiplier = 3 / 2 := by
    have h0 : t.sizeMultiplier ≠ 0 := by omega
    have h1 : t.sizeMultiplier ≠ 1 := by omega
    have h2 : t.sizeMultiplier ≠ 2 := by omega
    have h3 : t.sizeMultiplier ≠ 3 := by omega
    have h4 : t.sizeMultiplier ≠ 4 := by omega
    have h5 : t.sizeMultiplier ≠ 5 := by omega
    have h6 : t.sizeMultiplier ≠ 6 := by omega
    have h7 : t.sizeMultiplier ≠ 7 := by omega
    simp [sizeMultiplierVal, h0, h1, h2, h3, h4, h5, h6, h7]
  refine ⟨hval, ?_⟩
  intro r hr
  by_cases ht : t.text = ""
  · simp [renderText, ht] at hr
  · simp only [renderText, if_neg ht] at hr
    have := multilineRuns_fontSize _ _ _ _ _ _ r hr
    rw [this, hval]

/-- Witness for C10 at the out-of-range index 42. -/
theorem c10_size_multiplier_total_witness :
    ((7 : ℤ) < 42)
      ∧ sizeMultiplierVal (⟨0, 0, "A", "Left", 42, "comment"⟩ : TextRec).sizeMultiplier
          = 3 / 2 :=
  ⟨by decide,
    (c10_size_multiplier_total ⟨0, 0, "A", "Left", 42, "comment"⟩ 20
      (Or.inr (by decide))).1⟩

/-- C4 counterexample: a symbol definition with no windows entry for
property 0, an instance override for property 0 under the integer key,
and the non-empty instance name "R1": the claim's resolution places the
name at the override, but `_render_window_property` emits nothing — the
override is never consulted when the definition lacks the window. -/
theorem c4_counterexample :
    renderWindowProperty [] [(OvKey.ival 0, ⟨5, 5, "Right", 3⟩)] "0" "R1" false = none
      ∧ claimWindowResolve [] [(OvKey.ival 0, ⟨5, 5, "Right", 3⟩)] "0"
          = some ⟨5, 5, "Right", 3⟩
      ∧ "R1" ≠ "" := by
  refine ⟨rfl, by decide, by decide⟩

/-- C4 amended: for every windows map, override map, property id, value
and mirror flag, `_render_window_property` emits exactly the amended
resolution — the value at the override-superseded definition entry when
the definition has one, and nothing otherwise. -/
theorem c4_window_resolution (windows : List (String × WindowDef))
    (overrides : List (OvKey × WindowDef)) (propertyId : String)
    (propertyValue : String) (isMirrored : Bool) :
    renderWindowProperty windows overrides propertyId propertyValue isMirrored
      = (claimAmendedResolve windows overrides propertyId).map
          (fun w => ⟨w.wx, w.wy, propertyValue, w.justification,
            w.sizeMultiplier, isMirrored⟩) := by
  by_cases hw : windows = []
  · subst hw
    simp [renderWindowProperty, claimAmendedResolve, assocLookup]
  · rw [renderWindowProperty, if_neg hw, claimAmendedResolve]
    cases hl : assocLookup windows propertyId with
    | none => rfl
    | some d =>
        cases hp : parseIntStr propertyId with
        | none =>
            cases hs : assocLookup overrides (OvKey.sval propertyId) <;>
              simp [claimOverrideFor, hp, hs]
        | some n =>
            cases hi : assocLookup overrides (OvKey.ival n) with
            | none =>
                cases hs : assocLookup overrides (OvKey.sval propertyId) <;>
                  simp [claimOverrideFor, hp, hi, hs]
            | some ov => simp [claimOverrideFor, hp, hi]

/-- C9: when an instance references a symbol name with no definition in
the library, rendering emits no primitives for that instance, logs one
warning for it, and the render calls of every other instance (before and
after it) are exactly those of the schematic without it — the render as a
whole does not abort. -/
theorem c9_missing_symbol_skipped (lib : List (String × SymbolDef))
    (noNestedText : Bool) (pre post : List SymInst) (s : SymInst)
    (h : assocLookup lib s.symbolName = none) :
    renderSymbols lib noNestedText (pre ++ s :: post)
      = ((renderSymbols lib noNestedText pre).1
            ++ (renderSymbols lib noNestedText post).1,
         (renderSymbols lib noNestedText pre).2
            ++ missingWarning s.symbolName
              :: (renderSymbols lib noNestedText post).2) := by
  induction pre with
  | nil =>
      simp only [List.nil_append, renderSymbols]
      by_cases hname : s.symbolName = ""
      · rw [if_pos hname]
      · rw [if_neg hname, h]
  | cons q pre ih =>
      by_cases hq : q.symbolName = ""
      · simp [renderSymbols, hq, ih]
      · cases hl : assocLookup lib q.symbolName with
        | none => simp [renderSymbols, hq, hl, ih]
        | some d =>
            by_cases ht : noNestedText = true ∧ textOnlyDef d = true
            · obtain ⟨ht1, ht2⟩ := ht
              subst ht1
              simp [renderSymbols, hq, hl, ht2, ih]
            · simp [renderSymbols, hq, hl, ht, ih]

/-- Witness for C9: with a library containing only `RES`, rendering
`[R1, GHOST, R2]` invokes the renderer on R1 and R2 and logs exactly the
missing-definition warning for GHOST. -/
theorem c9_missing_symbol_skipped_witness :
    renderSymbols [("RES", resDef)] false [resInst, ghostInst, resInst2]
      = ((renderSymbols [("RES", resDef)] false [resInst]).1
            ++ (renderSymbols [("RES", resDef)] false [resInst2]).1,
         (renderSymbols [("RES", resDef)] false [resInst]).2
            ++ missingWarning ghostInst.symbolName
              :: (renderSymbols [("RES", resDef)] false [resInst2]).2) :=
  c9_missing_symbol_skipped [("RES", resDef)] false [resInst] [resInst2]
    ghostInst (by decide)

end LtspiceToSvg
